import Mathlib

/-!
Shallow embedding of the aws-cost-saver core that the claims concern:

* `StopFargateEcsServicesTrick` (src/unnamed/part_000): conserve/restore of
  Fargate ECS services, state capture (`getCurrentState`), the per-resource
  node actions (`conserveService`, `conserveScalableTargets`,
  `restoreService`, `restoreScalableTargets`) and the resource-id helper
  `getEcsServiceResourceId`.
* `TrickRegistry` (src/unnamed/part_001): `register`, `all`, `initialize`.
* `TrickInterface` (src/src/interfaces/trick.interface.ts): the `conserve`
  signature that carries a `tags` argument.

The AWS SDK and Listr are external collaborators.  Provider interactions are
embedded as an explicit event trace (`TrickEvent`): each awaited
`.promise()` call becomes `TrickEvent.apiCall`, each `task.skip`/
`task.output` becomes a `skip`/`output` event, and an `AWS.Request` that is
constructed but never sent (no callback, no `.promise()`, no `.send()`)
becomes `TrickEvent.requestCreated`.  Responses of the cloud environment are
a black-box `AwsEnv` record of response functions; a response field that may
be `undefined` in the SDK (the `|| []` fallbacks in the source) is an
`Option`.  Rejected promises become `Except.error`; `Promise.all` over the
per-resource promises becomes `promiseAll` (on rejection the source settles
with some rejection; `promiseAll` deterministically reports the leftmost
one, and the claims below only ever use the existence of an error).
Concurrent sibling tasks are linearized in their declaration order; every
theorem below about a whole-run trace only uses membership or absence of
events, or ordering within one node's own action, which are invariant under
re-interleavings of sibling nodes.
-/

/-- A provider API operation with its request parameters, as issued by the
trick (ECS `listClusters`, `listServices`, `describeServices`,
`updateService`, the `servicesStable` waiter, and ApplicationAutoScaling
`describeScalableTargets`, `registerScalableTarget`). -/
inductive ProviderCall where
  | listClusters : ProviderCall
  | listServices (cluster launchType : String) : ProviderCall
  | describeServices (cluster : String) (services : List String) : ProviderCall
  | describeScalableTargets (serviceNamespace : String) (resourceIds : List String)
      (scalableDimension : String) : ProviderCall
  | updateService (cluster service : String) (desiredCount : Nat) : ProviderCall
  | servicesStableWaiter (cluster : String) (services : List String) : ProviderCall
  | registerScalableTarget (serviceNamespace resourceId scalableDimension : String)
      (minCapacity maxCapacity : Nat) : ProviderCall
deriving DecidableEq, Repr

/-- One observable step of a trick run.  `apiCall` is a request that is sent
and awaited (the source calls `.promise()` on it).  `requestCreated` is an
`AWS.Request` object that is built but never sent: the source's bare
`this.ecsClient.waitFor('servicesStable', params)` has no callback and no
`.promise()`, so awaiting it resolves immediately with the unsent request.
`skip` and `output` are the Listr task-reporting side effects. -/
inductive TrickEvent where
  | apiCall (c : ProviderCall) : TrickEvent
  | requestCreated (c : ProviderCall) : TrickEvent
  | skip (msg : String) : TrickEvent
  | output (msg : String) : TrickEvent
deriving DecidableEq, Repr

/-- States/ecs-service.state scalable-target entry, as built by
`getCurrentState` (field `namespace` of the source is `nspace` here because
`namespace` is a Lean keyword). -/
structure EcsScalableTargetState where
  nspace : String
  resourceId : String
  scalableDimension : String
  min : Nat
  max : Nat
deriving DecidableEq, Repr

/-- States/ecs-service.state: captured per-service snapshot. -/
structure EcsServiceState where
  arn : String
  desired : Nat
  scalableTargets : List EcsScalableTargetState
deriving DecidableEq, Repr

/-- States/ecs-cluster.state: captured per-cluster snapshot. -/
structure EcsClusterState where
  arn : String
  services : List EcsServiceState
deriving DecidableEq, Repr

/-- `StopFargateEcsServicesState = EcsClusterState[]`. -/
abbrev StopFargateEcsServicesState := List EcsClusterState

/-- The slice of `AWS.ECS.Service` the source reads: `serviceArn`,
`desiredCount` and `clusterArn` are all optional in the SDK type. -/
structure EcsService where
  serviceArn : Option String
  desiredCount : Option Nat
  clusterArn : Option String
deriving DecidableEq, Repr

/-- The slice of `AWS.ApplicationAutoScaling.ScalableTarget` the source
reads; these four fields are required in the SDK type. -/
structure AwsScalableTarget where
  ResourceId : String
  ScalableDimension : String
  MinCapacity : Nat
  MaxCapacity : Nat
deriving DecidableEq, Repr

/-- The cloud environment as a black box of response functions, one per
provider query the trick issues.  `none` models an `undefined` response
field (the source guards each with `|| []`).  `describeServicesResp` is
keyed by cluster and requested chunk; `describeScalableTargetsResp` is keyed
by the single resource id the source passes. -/
structure AwsEnv where
  listClustersResp : Option (List String)
  listServicesResp : String → Option (List String)
  describeServicesResp : String → List String → Option (List EcsService)
  describeScalableTargetsResp : String → Option (List AwsScalableTarget)

/-- Modelled from the spec: `TagInterface`
(src/interfaces/tag.interface.ts is not under src/), the TagFilter
"key/value selection criteria passed opaquely from the caller into
conserve". -/
structure TagInterface where
  key : String
  value : String
deriving DecidableEq, Repr

/-- JavaScript falsiness of an optional string (`!x` is true exactly for
`undefined` and the empty string), as used by the
`if (!service.clusterArn)` guards. -/
def strFalsy : Option String → Bool
  | none => true
  | some s => s = ""

/-- Fuel-driven worker for `chunksOf` (structural recursion on the fuel so
that the kernel can evaluate it). -/
def chunksGo (n : Nat) : Nat → List α → List (List α)
  | _, [] => []
  | 0, _ :: _ => []
  | fuel + 1, x :: xs => ((x :: xs).take n) :: chunksGo n fuel ((x :: xs).drop n)

/-- lodash `_.chunk(list, n)`: split into consecutive chunks of size `n`
(last chunk possibly shorter); `_.chunk(list, 0)` is `[]`. -/
def chunksOf (n : Nat) (l : List α) : List (List α) :=
  if n = 0 then [] else chunksGo n l.length l

/-- `Promise.all` over already-started promises: resolves with the list of
values when all resolve, rejects when any rejects (the leftmost rejection is
reported; the claims only use that some rejection surfaces). -/
def promiseAll : List (Except String α) → Except String (List α)
  | [] => .ok []
  | .error e :: _ => .error e
  | .ok a :: xs =>
    match promiseAll xs with
    | .error e => .error e
    | .ok as => .ok (a :: as)

/-- Character-level worker for JS `String.split('/')`: splitting an empty
text gives one empty segment, a separator opens a new segment, any other
character extends the current first segment. -/
def splitSlashChars : List Char → List (List Char)
  | [] => [[]]
  | c :: cs =>
    let rest := splitSlashChars cs
    if c = '/' then [] :: rest
    else
      match rest with
      | [] => [[c]]
      | h :: t => (c :: h) :: t

/-- JS `s.split('/')` for the one-character separator the source uses
(never returns an empty list). -/
def splitOnSlash (s : String) : List String :=
  (splitSlashChars s.data).map (fun cs => String.mk cs)

/-- `getEcsServiceResourceId`: `service/` + last `/`-segment of the cluster
ARN + `/` + last `/`-segment of the service ARN (JS `split('/').pop()`;
the split never returns `[]`, so the `getLastD` default is never used, just
as `pop()` on the split result is never `undefined`). -/
def getEcsServiceResourceId (clusterArn serviceArn : String) : String :=
  let clusterName := (splitOnSlash clusterArn).getLastD ""
  let serviceName := (splitOnSlash serviceArn).getLastD ""
  "service/" ++ clusterName ++ "/" ++ serviceName

/-- `conserveService`: dry-run skips; a positive desired count is driven to
zero by `updateService` (awaited with `.promise()`) followed by a bare
`waitFor('servicesStable', …)` whose request is created but never sent;
desired count zero skips. -/
def conserveService (dryRun : Bool) (clusterState : EcsClusterState)
    (serviceState : EcsServiceState) : List TrickEvent :=
  if dryRun then
    [.skip "Skipped due to dry-run"]
  else if 0 < serviceState.desired then
    [.output "Updating desired count to zero...",
     .apiCall (.updateService clusterState.arn serviceState.arn 0),
     .output "Waiting for service to scale down to zero...",
     .requestCreated (.servicesStableWaiter clusterState.arn [serviceState.arn]),
     .output "Set desired count to zero"]
  else
    [.skip "Skipped, desired count is already zero"]

/-- `conserveScalableTargets`: no targets skips, dry-run skips, otherwise
each captured target is re-registered with MinCapacity 0 and MaxCapacity 0
under the id `getEcsServiceResourceId(cluster, service)`. -/
def conserveScalableTargets (dryRun : Bool) (clusterState : EcsClusterState)
    (serviceState : EcsServiceState) : List TrickEvent :=
  if serviceState.scalableTargets.isEmpty then
    [.skip "No scalable targets defined"]
  else if dryRun then
    [.skip "Skipped due to dry-run"]
  else
    serviceState.scalableTargets.map (fun scalableTarget =>
      .apiCall (.registerScalableTarget scalableTarget.nspace
        (getEcsServiceResourceId clusterState.arn serviceState.arn)
        scalableTarget.scalableDimension 0 0))

/-- `restoreService`: dry-run skips; a positive captured desired count is
written back by `updateService` followed by the same bare (never sent)
`servicesStable` waiter request; a captured desired count of zero skips.
The branch condition reads only the captured State: no describe of the live
configuration happens. -/
def restoreService (dryRun : Bool) (clusterState : EcsClusterState)
    (serviceState : EcsServiceState) : List TrickEvent :=
  if dryRun then
    [.skip "Skipped due to dry-run"]
  else if 0 < serviceState.desired then
    [.output ("Updating desired count to " ++ toString serviceState.desired ++ "..."),
     .apiCall (.updateService clusterState.arn serviceState.arn serviceState.desired),
     .output ("Waiting for service to reach " ++ toString serviceState.desired
       ++ " desired tasks..."),
     .requestCreated (.servicesStableWaiter clusterState.arn [serviceState.arn]),
     .output ("Restored desired count to " ++ toString serviceState.desired)]
  else
    [.skip "Skipped, desired count was previously zero"]

/-- `restoreScalableTargets`: no targets skips; otherwise per captured
target the dry-run check skips or the target is re-registered with its
captured MinCapacity/MaxCapacity under
`getEcsServiceResourceId(cluster, service)`. -/
def restoreScalableTargets (dryRun : Bool) (clusterState : EcsClusterState)
    (serviceState : EcsServiceState) : List TrickEvent :=
  if serviceState.scalableTargets.isEmpty then
    [.skip "No scalable targets defined"]
  else
    serviceState.scalableTargets.flatMap (fun scalableTarget =>
      if dryRun then
        [.skip "Skipped due to dry-run"]
      else
        [.apiCall (.registerScalableTarget scalableTarget.nspace
          (getEcsServiceResourceId clusterState.arn serviceState.arn)
          scalableTarget.scalableDimension scalableTarget.min scalableTarget.max)])

/-- `listServices(cluster)`: `serviceArns || []` of the FARGATE-scoped
listing. -/
def listServicesResult (env : AwsEnv) (clusterArn : String) : List String :=
  (env.listServicesResp clusterArn).getD []

/-- `describeAllServices` result: the concatenated `services || []` of one
`describeServices` call per 10-element chunk of the listed service ARNs. -/
def describeAllServicesResult (env : AwsEnv) (clusterArn : String) : List EcsService :=
  (chunksOf 10 (listServicesResult env clusterArn)).flatMap
    (fun services => (env.describeServicesResp clusterArn services).getD [])

/-- The provider calls `describeAllServices` issues, in order. -/
def describeAllServicesCalls (env : AwsEnv) (clusterArn : String) : List TrickEvent :=
  .apiCall (.listServices clusterArn "FARGATE") ::
    (chunksOf 10 (listServicesResult env clusterArn)).map
      (fun services => .apiCall (.describeServices clusterArn services))

/-- `describeAllScalableTargets`: throws on a falsy `clusterArn` or
`serviceArn` (the source interpolates the service object into the message;
the fixed prefix is kept here), otherwise queries namespace `ecs`,
dimension `ecs:service:DesiredCount` and the computed resource id, paired
with the call it issued. -/
def describeAllScalableTargets (env : AwsEnv) (service : EcsService) :
    Except String (List AwsScalableTarget × List TrickEvent) :=
  if strFalsy service.clusterArn then
    .error "Unexpected missing clusterArn for ECS service"
  else if strFalsy service.serviceArn then
    .error "Unexpected missing serviceArn for ECS service"
  else
    let resourceId :=
      getEcsServiceResourceId (service.clusterArn.getD "") (service.serviceArn.getD "")
    .ok ((env.describeScalableTargetsResp resourceId).getD [],
      [.apiCall (.describeScalableTargets "ecs" [resourceId] "ecs:service:DesiredCount")])

/-- The scalable-target mapping inside `getCurrentState`: namespace is the
literal `ecs`, the rest copies the described target. -/
def awsTargetToState (st : AwsScalableTarget) : EcsScalableTargetState :=
  { nspace := "ecs", resourceId := st.ResourceId,
    scalableDimension := st.ScalableDimension,
    min := st.MinCapacity, max := st.MaxCapacity }

/-- The per-service body of `getCurrentState`: throws when `serviceArn` or
`desiredCount` is `undefined`, otherwise captures the arn, the desired
count and the described scalable targets, paired with the calls issued. -/
def serviceToState (env : AwsEnv) (service : EcsService) :
    Except String (EcsServiceState × List TrickEvent) :=
  match service.serviceArn with
  | none => .error "Unexpected error: serviceArn is missing for ECS service"
  | some serviceArn =>
    match service.desiredCount with
    | none => .error "Unexpected error: desiredCount is missing for ECS service"
    | some desiredCount =>
      (describeAllScalableTargets env service).map (fun p =>
        ({ arn := serviceArn, desired := desiredCount,
           scalableTargets := p.1.map awsTargetToState }, p.2))

/-- The per-cluster body of `getCurrentState`: describe all services of the
cluster, then `Promise.all` their state captures. -/
def clusterToState (env : AwsEnv) (clusterArn : String) :
    Except String (EcsClusterState × List TrickEvent) :=
  let services := describeAllServicesResult env clusterArn
  (promiseAll (services.map (serviceToState env))).map (fun pairs =>
    ({ arn := clusterArn, services := pairs.map Prod.fst },
      describeAllServicesCalls env clusterArn ++ (pairs.map Prod.snd).flatten))

/-- `getCurrentState`: `Promise.all` of the per-cluster captures, paired
with the discovery calls issued. -/
def getCurrentState (env : AwsEnv) (clustersArn : List String) :
    Except String (StopFargateEcsServicesState × List TrickEvent) :=
  (promiseAll (clustersArn.map (clusterToState env))).map (fun pairs =>
    (pairs.map Prod.fst, (pairs.map Prod.snd).flatten))

/-- The per-service Listr nodes that `conserve` adds: for every captured
cluster and service, the concurrent pair `conserveService` /
`conserveScalableTargets`, linearized in declaration order. -/
def conserveNodeEvents (dryRun : Bool) (currentState : StopFargateEcsServicesState) :
    List TrickEvent :=
  currentState.flatMap (fun cluster =>
    cluster.services.flatMap (fun service =>
      conserveService dryRun cluster service
        ++ conserveScalableTargets dryRun cluster service))

/-- `conserve(subListr, dryRun)`: list clusters (`clusterArns || []`),
capture the current state, add one node per captured service, and return
the captured state; paired with the full event trace. -/
def conserve (env : AwsEnv) (dryRun : Bool) :
    Except String (StopFargateEcsServicesState × List TrickEvent) :=
  let clustersArn := env.listClustersResp.getD []
  (getCurrentState env clustersArn).map (fun p =>
    (p.1, .apiCall .listClusters :: p.2 ++ conserveNodeEvents dryRun p.1))

/-- `conserve` as invoked through `TrickInterface.conserve(subListr, dryRun,
tags)`: the interface passes a `tags` argument, but the implementation's
parameter list (`conserve(subListr, dryRun)`) does not bind it, so
JavaScript drops it on the floor. -/
def conserveViaInterface (env : AwsEnv) (dryRun : Bool)
    (tags : List TagInterface) : Except String (StopFargateEcsServicesState × List TrickEvent) :=
  conserve env dryRun

/-- The per-service Listr nodes that `restore` adds: for every cluster and
service of the given State, the concurrent pair `restoreService` /
`restoreScalableTargets`, linearized in declaration order. -/
def restoreNodeEvents (dryRun : Bool) (originalState : StopFargateEcsServicesState) :
    List TrickEvent :=
  originalState.flatMap (fun cluster =>
    cluster.services.flatMap (fun service =>
      restoreService dryRun cluster service
        ++ restoreScalableTargets dryRun cluster service))

/-- `restore(subListr, dryRun, originalState)`: one node per service of the
given State.  The trick instance holds its AWS clients (the `env`
parameter here, as in `conserve`), but the body reads nothing from them:
the trace is built from the State and `dryRun` alone. -/
def restore (env : AwsEnv) (dryRun : Bool)
    (originalState : StopFargateEcsServicesState) : List TrickEvent :=
  restoreNodeEvents dryRun originalState

/-- Is this provider operation a mutation of the cloud configuration
(`updateService` or `registerScalableTarget`)? -/
def ProviderCall.isMutating : ProviderCall → Bool
  | .updateService _ _ _ => true
  | .registerScalableTarget _ _ _ _ _ => true
  | _ => false

/-- Is this provider operation a discovery/describe query? -/
def ProviderCall.isDiscovery : ProviderCall → Bool
  | .listClusters => true
  | .listServices _ _ => true
  | .describeServices _ _ => true
  | .describeScalableTargets _ _ _ => true
  | _ => false

/-- The mutating provider call performed by an event, if any (an unsent
request performs nothing). -/
def mutatingCallOf : TrickEvent → Option ProviderCall
  | .apiCall c => if c.isMutating then some c else none
  | _ => none

/-- The mutating provider calls actually performed in a trace. -/
def mutatingCalls (events : List TrickEvent) : List ProviderCall :=
  events.filterMap mutatingCallOf

/-- Does the event touch a discovery/describe operation (sent or not)? -/
def TrickEvent.isDiscoveryEvent : TrickEvent → Bool
  | .apiCall c => c.isDiscovery
  | .requestCreated c => c.isDiscovery
  | _ => false

/-- Is the event a Listr `task.skip`? -/
def TrickEvent.isSkip : TrickEvent → Bool
  | .skip _ => true
  | _ => false

/-- Is the event a performed (sent and awaited) `servicesStable` wait? -/
def TrickEvent.isPerformedWait : TrickEvent → Bool
  | .apiCall (.servicesStableWaiter _ _) => true
  | _ => false

/-- The `ResourceId` parameters of the `registerScalableTarget` calls of a
trace. -/
def registerCallResourceIds (events : List TrickEvent) : List String :=
  events.filterMap (fun e =>
    match e with
    | .apiCall (.registerScalableTarget _ resourceId _ _ _) => some resourceId
    | _ => none)

/-- The registry element type: only the machine name matters to the claims;
the interface's other operations (display name, concurrency flag, conserve,
restore) are elided. -/
structure Trick where
  machineName : String
deriving DecidableEq, Repr

/-- `TrickRegistry` wraps a growable array of tricks. -/
abbrev TrickRegistry := List Trick

/-- `register(...trick)`: pushes the given tricks at the end, rejecting
nothing. -/
def TrickRegistry.register (registry : TrickRegistry) (tricks : List Trick) :
    TrickRegistry :=
  registry ++ tricks

/-- `all()`: the full list, in registration order. -/
def TrickRegistry.all (registry : TrickRegistry) : List Trick :=
  registry

/-- `StopFargateEcsServicesTrick.machineName` (from src). -/
def stopFargateEcsServicesTrick : Trick :=
  { machineName := "stop-fargate-ecs-services" }

/-- Modelled from the spec: the trick classes other than
`StopFargateEcsServicesTrick` are not under src/ (only their registration
in `TrickRegistry.initialize` is).  The spec requires each capability to
carry a stable unique machine name; each machine name here is the slug of
the module the registry imports the class from. -/
def stopRdsDatabaseInstancesTrick : Trick :=
  { machineName := "stop-rds-database-instances" }

/-- Modelled from the spec: see `stopRdsDatabaseInstancesTrick`. -/
def shutdownEC2InstancesTrick : Trick :=
  { machineName := "shutdown-ec2-instances" }

/-- Modelled from the spec: see `stopRdsDatabaseInstancesTrick`. -/
def decreaseDynamoDBProvisionedRcuWcuTrick : Trick :=
  { machineName := "decrease-dynamodb-provisioved-rcu-wcu" }

/-- Modelled from the spec: see `stopRdsDatabaseInstancesTrick`. -/
def removeNatGatewaysTrick : Trick :=
  { machineName := "remove-nat-gateways" }

/-- Modelled from the spec: see `stopRdsDatabaseInstancesTrick`. -/
def snapshotRemoveElasticacheRedisTrick : Trick :=
  { machineName := "snapshot-remove-elasticache-redis" }

/-- Modelled from the spec: see `stopRdsDatabaseInstancesTrick`. -/
def decreaseKinesisStreamsShardsTrick : Trick :=
  { machineName := "decrease-kinesis-streams-shards" }

/-- `TrickRegistry.initialize`: a fresh registry with the seven tricks
registered in one call, in this order. -/
def TrickRegistry.initialize : TrickRegistry :=
  TrickRegistry.register []
    [stopFargateEcsServicesTrick,
     stopRdsDatabaseInstancesTrick,
     shutdownEC2InstancesTrick,
     decreaseDynamoDBProvisionedRcuWcuTrick,
     removeNatGatewaysTrick,
     snapshotRemoveElasticacheRedisTrick,
     decreaseKinesisStreamsShardsTrick]

/-! ## Concrete inputs used by the scenario theorems, witnesses and
counterexamples -/

/-- Scenario cluster ARN. -/
def cArn7 : String := "arn:aws:ecs:eu-west-1:111:cluster/macbeth"

/-- Scenario service ARN. -/
def sArn7 : String := "arn:aws:ecs:eu-west-1:111:service/duncan"

/-- Scenario scalable-target resource id. -/
def rid7 : String := "service/macbeth/duncan"

/-- Scenario environment: one cluster, one Fargate service at desired count
3 with one scalable target at MinCapacity 1 / MaxCapacity 10. -/
def env7 : AwsEnv where
  listClustersResp := some [cArn7]
  listServicesResp := fun c => if c = cArn7 then some [sArn7] else none
  describeServicesResp := fun c svcs =>
    if c = cArn7 ∧ svcs = [sArn7] then
      some [{ serviceArn := some sArn7, desiredCount := some 3, clusterArn := some cArn7 }]
    else none
  describeScalableTargetsResp := fun resourceId =>
    if resourceId = rid7 then
      some [{ ResourceId := rid7, ScalableDimension := "ecs:service:DesiredCount",
              MinCapacity := 1, MaxCapacity := 10 }]
    else none

/-- The scenario service state `conserve` captures from `env7`. -/
def svc7 : EcsServiceState :=
  { arn := sArn7, desired := 3,
    scalableTargets :=
      [{ nspace := "ecs", resourceId := rid7,
         scalableDimension := "ecs:service:DesiredCount", min := 1, max := 10 }] }

/-- The scenario cluster state `conserve` captures from `env7`. -/
def cl7 : EcsClusterState := { arn := cArn7, services := [svc7] }

/-- The scenario State `conserve` captures from `env7`. -/
def state7 : StopFargateEcsServicesState := [cl7]

/-- The discovery prefix of every `conserve` trace on `env7`. -/
def discovery7 : List TrickEvent :=
  [.apiCall .listClusters,
   .apiCall (.listServices cArn7 "FARGATE"),
   .apiCall (.describeServices cArn7 [sArn7]),
   .apiCall (.describeScalableTargets "ecs" [rid7] "ecs:service:DesiredCount")]

/-- The full `conserve env7 false` trace. -/
def trace7 : List TrickEvent :=
  discovery7 ++
    [.output "Updating desired count to zero...",
     .apiCall (.updateService cArn7 sArn7 0),
     .output "Waiting for service to scale down to zero...",
     .requestCreated (.servicesStableWaiter cArn7 [sArn7]),
     .output "Set desired count to zero",
     .apiCall (.registerScalableTarget "ecs" rid7 "ecs:service:DesiredCount" 0 0)]

/-- The full `conserve env7 true` (dry-run) trace. -/
def trace7dry : List TrickEvent :=
  discovery7 ++ [.skip "Skipped due to dry-run", .skip "Skipped due to dry-run"]

/-- C7: on the scenario environment (service at desired 3, one scaling
target min 1 / max 10), `conserve` captures desired 3 and the target
bounds, performs `updateService` to 0 and `registerScalableTarget` with
MinCapacity 0 / MaxCapacity 0 and nothing else mutating; `restore` with
that State performs `updateService` back to 3 and `registerScalableTarget`
with MinCapacity 1 / MaxCapacity 10 and nothing else mutating. -/
theorem fargate_round_trip_scenario :
    conserve env7 false = .ok (state7, trace7) ∧
    svc7.desired = 3 ∧ svc7.scalableTargets.map (fun t => (t.min, t.max)) = [(1, 10)] ∧
    ProviderCall.updateService cArn7 sArn7 0 ∈ mutatingCalls trace7 ∧
    ProviderCall.registerScalableTarget "ecs" rid7 "ecs:service:DesiredCount" 0 0
      ∈ mutatingCalls trace7 ∧
    (mutatingCalls trace7).length = 2 ∧
    ProviderCall.updateService cArn7 sArn7 3 ∈ mutatingCalls (restore env7 false state7) ∧
    ProviderCall.registerScalableTarget "ecs" rid7 "ecs:service:DesiredCount" 1 10
      ∈ mutatingCalls (restore env7 false state7) ∧
    (mutatingCalls (restore env7 false state7)).length = 2 :=
  ⟨rfl, rfl, rfl, by decide, by decide, by decide, by decide, by decide, by decide⟩

/-- Cluster used by the stability-wait evaluation. -/
def cl2 : EcsClusterState :=
  { arn := "arn:aws:ecs:us-east-1:9:cluster/blue",
    services := [{ arn := "arn:aws:ecs:us-east-1:9:service/green", desired := 3,
                   scalableTargets := [] }] }

/-- Service used by the stability-wait evaluation. -/
def svc2 : EcsServiceState :=
  { arn := "arn:aws:ecs:us-east-1:9:service/green", desired := 3, scalableTargets := [] }

/-- C2 (code evaluated at the failing input): with `dryRun = false` and a
service at desired count 3, `conserveService` performs `updateService` and
then only creates — never sends — the `servicesStable` waiter request (the
source omits `.promise()` on `waitFor`), so the final
`Set desired count to zero` output is emitted with no performed
wait-for-stability call anywhere in the node's events; `restoreService`
performs no wait either. -/
theorem stability_wait_request_never_sent :
    conserveService false cl2 svc2 =
      [.output "Updating desired count to zero...",
       .apiCall (.updateService "arn:aws:ecs:us-east-1:9:cluster/blue"
         "arn:aws:ecs:us-east-1:9:service/green" 0),
       .output "Waiting for service to scale down to zero...",
       .requestCreated (.servicesStableWaiter "arn:aws:ecs:us-east-1:9:cluster/blue"
         ["arn:aws:ecs:us-east-1:9:service/green"]),
       .output "Set desired count to zero"] ∧
    (conserveService false cl2 svc2).all (fun e => !e.isPerformedWait) = true ∧
    (restoreService false cl2 svc2).all (fun e => !e.isPerformedWait) = true :=
  ⟨rfl, by decide, by decide⟩

/-- Cluster ARN of the idempotence counterexample. -/
def cArnL : String := "arn:aws:ecs:eu-west-1:222:cluster/prospero"

/-- Service ARN of the idempotence counterexample. -/
def sArnL : String := "arn:aws:ecs:eu-west-1:222:service/ariel"

/-- A captured State with desired count 3 and no scalable targets. -/
def state1 : StopFargateEcsServicesState :=
  [{ arn := cArnL, services := [{ arn := sArnL, desired := 3, scalableTargets := [] }] }]

/-- The environment after a first successful restore of `state1`: the live
desired count reported by `describeServices` is already 3, equal to the
captured one. -/
def envLive1 : AwsEnv where
  listClustersResp := some [cArnL]
  listServicesResp := fun _ => some [sArnL]
  describeServicesResp := fun _ _ =>
    some [{ serviceArn := some sArnL, desiredCount := some 3, clusterArn := some cArnL }]
  describeScalableTargetsResp := fun _ => some []

/-- C1 counterexample: in `envLive1` the live desired count already equals
the captured desired count 3, yet `restore` with `state1` still performs
the mutating `updateService` call — and its trace does not depend on the
environment at all, so a second invocation with the same State repeats the
same mutating call instead of skipping. -/
theorem restore_second_run_mutates_cex :
    ((envLive1.describeServicesResp cArnL [sArnL]).getD []).map EcsService.desiredCount
      = [some 3] ∧
    state1.map (fun cl => cl.services.map EcsServiceState.desired) = [[3]] ∧
    mutatingCalls (restore envLive1 false state1) = [.updateService cArnL sArnL 3] ∧
    restore envLive1 false state1 = restore env7 false state1 :=
  ⟨rfl, rfl, by decide, rfl⟩

/-- C1 as amended: `restore` never consults the live configuration — its
desired-count branch mutates exactly when the captured desired count is
positive and its scalable-target branch mutates exactly when the captured
target list is nonempty, and the whole restore trace is the same in every
environment (so a repeated restore re-issues the same mutating calls;
the only skips are for captured-zero or target-free entries). -/
theorem restore_mutation_depends_only_on_captured_state
    (cl : EcsClusterState) (svc : EcsServiceState) :
    (mutatingCalls (restoreService false cl svc) ≠ [] ↔ 0 < svc.desired) ∧
    (mutatingCalls (restoreScalableTargets false cl svc) ≠ [] ↔ svc.scalableTargets ≠ []) ∧
    ∀ (env₁ env₂ : AwsEnv) (d : Bool) (s : StopFargateEcsServicesState),
      restore env₁ d s = restore env₂ d s := by
  refine ⟨?_, ?_, fun _ _ _ _ => rfl⟩
  · by_cases h : 0 < svc.desired <;>
      simp [restoreService, mutatingCalls, mutatingCallOf, h, ProviderCall.isMutating]
  · obtain ⟨arn, desired, targets⟩ := svc
    cases targets with
    | nil => simp [restoreScalableTargets, mutatingCalls, mutatingCallOf]
    | cons t ts =>
      simp [restoreScalableTargets, mutatingCalls, mutatingCallOf,
        ProviderCall.isMutating]

/-- C5 counterexample: two different tag filters given to the
interface-level `conserve` produce the identical result on the scenario
environment — the returned State (desired 3, target bounds 1/10) is not
restricted by either tag filter, because the implementation never binds the
`tags` parameter. -/
theorem conserve_ignores_tags_cex :
    (⟨"Team", "ops"⟩ : TagInterface) ≠ ⟨"Env", "prod"⟩ ∧
    conserveViaInterface env7 false [⟨"Team", "ops"⟩]
      = conserveViaInterface env7 false [⟨"Env", "prod"⟩] ∧
    (conserveViaInterface env7 false [⟨"Team", "ops"⟩]).map Prod.fst = .ok state7 :=
  ⟨by decide, rfl, rfl⟩

/-- C5 as amended: the `TrickInterface.conserve` signature carries a `tags`
argument, but this capability ignores it — for every environment, dry-run
flag and pair of tag lists, the discovered resources, the returned State
and the whole event trace are identical, so `conserve` is independent of
the `tags` parameter (discovery is scoped only by the FARGATE launch
type). -/
theorem conserve_independent_of_tags (env : AwsEnv) (dryRun : Bool)
    (tags₁ tags₂ : List TagInterface) :
    conserveViaInterface env dryRun tags₁ = conserveViaInterface env dryRun tags₂ :=
  rfl

/-- If some element of the list rejects, `promiseAll` rejects. -/
theorem promiseAll_error_of_mem {l : List (Except String α)} {e : String}
    (hx : Except.error e ∈ l) : ∃ e', promiseAll l = .error e' := by
  induction l with
  | nil => cases hx
  | cons y ys ih =>
    cases hx with
    | head => exact ⟨e, rfl⟩
    | tail _ hmem =>
      obtain ⟨e', h'⟩ := ih hmem
      cases y with
      | error e₀ => exact ⟨e₀, rfl⟩
      | ok a => exact ⟨e', by simp [promiseAll, h']⟩

/-- `promiseAll` resolves exactly when every element resolves, elementwise
and in order. -/
theorem promiseAll_ok_forall2 {l : List (Except String α)} {r : List α}
    (h : promiseAll l = .ok r) :
    List.Forall₂ (fun x b => x = Except.ok b) l r := by
  induction l generalizing r with
  | nil =>
    cases h
    exact List.Forall₂.nil
  | cons y ys ih =>
    cases y with
    | error e => simp [promiseAll] at h
    | ok a =>
      cases hys : promiseAll ys with
      | error e => simp [promiseAll, hys] at h
      | ok as =>
        simp only [promiseAll, hys] at h
        cases h
        exact List.Forall₂.cons rfl (ih hys)

/-- Cluster ARN of the failure-isolation counterexample. -/
def cArn4 : String := "arn:aws:ecs:eu-west-1:333:cluster/lear"

/-- ARN of the discovered service with a missing field. -/
def sArnBad : String := "arn:aws:ecs:eu-west-1:333:service/goneril"

/-- ARN of the healthy sibling service. -/
def sArnGood : String := "arn:aws:ecs:eu-west-1:333:service/cordelia"

/-- A discovered service whose `desiredCount` is absent. -/
def svcBad : EcsService :=
  { serviceArn := some sArnBad, desiredCount := none, clusterArn := some cArn4 }

/-- A healthy discovered sibling service (all required fields present). -/
def svcGood : EcsService :=
  { serviceArn := some sArnGood, desiredCount := some 2, clusterArn := some cArn4 }

/-- One cluster with the two services above. -/
def env4 : AwsEnv where
  listClustersResp := some [cArn4]
  listServicesResp := fun c => if c = cArn4 then some [sArnBad, sArnGood] else none
  describeServicesResp := fun c svcs =>
    if c = cArn4 ∧ svcs = [sArnBad, sArnGood] then some [svcBad, svcGood] else none
  describeScalableTargetsResp := fun _ => some []

/-- C4 counterexample: the healthy sibling `svcGood` is discovered in the
same cluster as `svcBad`, whose `desiredCount` is absent — and `conserve`
of the whole capability rejects with the missing-field error, so no State
entry is returned for the unaffected sibling (the failure is not local to
the bad resource's branch). -/
theorem missing_field_aborts_siblings_cex :
    svcGood ∈ describeAllServicesResult env4 cArn4 ∧
    svcGood.serviceArn = some sArnGood ∧
    svcGood.desiredCount = some 2 ∧
    svcBad.desiredCount = none ∧
    conserve env4 false =
      .error "Unexpected error: desiredCount is missing for ECS service" :=
  ⟨by decide, rfl, rfl, rfl, rfl⟩

/-- C4 as amended: a missing required discovery field (`serviceArn` or
`desiredCount`) on any discovered service is a DiscoveryError that is fatal
to this capability's entire `conserve` — the run returns an error and
captures no State for any sibling; isolation holds only at the capability
boundary, not per resource branch. -/
theorem missing_field_aborts_whole_conserve (env : AwsEnv) (d : Bool)
    (cArn : String) (svc : EcsService)
    (hc : cArn ∈ env.listClustersResp.getD [])
    (hs : svc ∈ describeAllServicesResult env cArn)
    (hbad : svc.serviceArn = none ∨ svc.desiredCount = none) :
    ∃ e, conserve env d = .error e := by
  have hsvc : ∃ e, serviceToState env svc = .error e := by
    rcases hbad with h | h
    · exact ⟨"Unexpected error: serviceArn is missing for ECS service",
        by simp [serviceToState, h]⟩
    · cases ha : svc.serviceArn with
      | none =>
        exact ⟨"Unexpected error: serviceArn is missing for ECS service",
          by simp [serviceToState, ha]⟩
      | some a =>
        exact ⟨"Unexpected error: desiredCount is missing for ECS service",
          by simp [serviceToState, ha, h]⟩
  obtain ⟨e₀, he₀⟩ := hsvc
  have hmem : Except.error e₀ ∈ (describeAllServicesResult env cArn).map (serviceToState env) := by
    rw [← he₀]
    exact List.mem_map_of_mem _ hs
  obtain ⟨e₁, he₁⟩ := promiseAll_error_of_mem hmem
  have hcl : clusterToState env cArn = .error e₁ := by
    simp [clusterToState, he₁, Except.map]
  have hmem₂ : Except.error e₁ ∈ (env.listClustersResp.getD []).map (clusterToState env) := by
    rw [← hcl]
    exact List.mem_map_of_mem _ hc
  obtain ⟨e₂, he₂⟩ := promiseAll_error_of_mem hmem₂
  exact ⟨e₂, by simp [conserve, getCurrentState, he₂, Except.map]⟩

/-- Witness for the amended C4 theorem at the concrete `env4`. -/
theorem missing_field_aborts_whole_conserve_witness :
    ∃ e, conserve env4 false = .error e :=
  missing_field_aborts_whole_conserve env4 false cArn4 svcBad (by decide) (by decide)
    (Or.inr rfl)

/-- C6: `restore` is self-contained — its event trace contains no discovery
or describe call (every provider call is parameterized by the captured
State and `dryRun` alone), and the trace is identical across any two
environments, so two restore runs on the same State and dry-run flag issue
the same call sequence regardless of the current cloud state. -/
theorem restore_self_contained (env₁ env₂ : AwsEnv) (d : Bool)
    (state : StopFargateEcsServicesState) :
    (restore env₁ d state).all (fun e => !e.isDiscoveryEvent) = true ∧
    restore env₁ d state = restore env₂ d state := by
  refine ⟨?_, rfl⟩
  rw [List.all_eq_true]
  intro e he
  simp only [restore, restoreNodeEvents, List.mem_flatMap, List.mem_append] at he
  obtain ⟨cl, -, svc, -, hmem | hmem⟩ := he
  · unfold restoreService at hmem
    split at hmem
    · simp only [List.mem_singleton] at hmem
      subst hmem
      rfl
    · split at hmem
      · simp only [List.mem_cons, List.not_mem_nil, or_false] at hmem
        rcases hmem with h | h | h | h | h <;> subst h <;> rfl
      · simp only [List.mem_singleton] at hmem
        subst hmem
        rfl
  · unfold restoreScalableTargets at hmem
    split at hmem
    · simp only [List.mem_singleton] at hmem
      subst hmem
      rfl
    · simp only [List.mem_flatMap] at hmem
      obtain ⟨t, -, ht⟩ := hmem
      split at ht <;> simp only [List.mem_singleton] at ht <;> subst ht <;> rfl

/-- Folding `register` over any sequence of batches appends them all in
order to the initial registry. -/
theorem foldl_register_eq (batches : List (List Trick)) (init : TrickRegistry) :
    batches.foldl TrickRegistry.register init = init ++ batches.flatten := by
  induction batches generalizing init with
  | nil => simp
  | cons b bs ih =>
    simp [TrickRegistry.register, ih, List.append_assoc]

/-- C9: for every sequence of `register` calls, `all()` is exactly the
concatenation of the registered batches in registration order (nothing is
rejected), its length is the total number of registrations, and the seven
capabilities registered by `initialize` have pairwise distinct machine
names. -/
theorem registry_integrity (batches : List (List Trick)) :
    TrickRegistry.all (batches.foldl TrickRegistry.register ([] : TrickRegistry))
      = batches.flatten ∧
    (TrickRegistry.all (batches.foldl TrickRegistry.register ([] : TrickRegistry))).length
      = (batches.map List.length).sum ∧
    List.Nodup (List.map Trick.machineName TrickRegistry.initialize) := by
  refine ⟨?_, ?_, by decide⟩
  · rw [TrickRegistry.all, foldl_register_eq, List.nil_append]
  · rw [TrickRegistry.all, foldl_register_eq, List.nil_append, List.length_flatten]

/-- `getLastD` is the head of the reversed list with the same default. -/
theorem getLastD_eq_reverse_headD (l : List String) (d : String) :
    l.getLastD d = l.reverse.headD d := by
  rw [List.getLastD_eq_getLast?, List.headD_eq_head?, List.head?_reverse]

/-- The `ResourceId`s of one `registerScalableTarget` event per target with
a common id `rid` (the conserve shape). -/
theorem registerCallResourceIds_conserve_map (rid : String)
    (l : List EcsScalableTargetState) :
    registerCallResourceIds (l.map (fun t =>
      TrickEvent.apiCall (.registerScalableTarget t.nspace rid t.scalableDimension 0 0)))
      = List.replicate l.length rid := by
  induction l with
  | nil => rfl
  | cons t ts ih =>
    simp only [List.map_cons, registerCallResourceIds, List.filterMap_cons] at ih ⊢
    rw [ih]
    rfl

/-- The `ResourceId`s of one `registerScalableTarget` event per target with
a common id `rid` (the restore shape). -/
theorem registerCallResourceIds_restore_map (rid : String)
    (l : List EcsScalableTargetState) :
    registerCallResourceIds (l.flatMap (fun t =>
      [TrickEvent.apiCall (.registerScalableTarget t.nspace rid t.scalableDimension
        t.min t.max)]))
      = List.replicate l.length rid := by
  induction l with
  | nil => rfl
  | cons t ts ih =>
    simp only [List.flatMap_cons, List.singleton_append, registerCallResourceIds,
      List.filterMap_cons] at ih ⊢
    rw [ih]
    rfl

/-- C10: the resource id is `service/` + the last `/`-segment of the
cluster ARN + `/` + the last `/`-segment of the service ARN, and for every
cluster/service pair both `conserveScalableTargets` and
`restoreScalableTargets` use exactly this id in every
`registerScalableTarget` call (one per captured target), so a target
registered at conserve time is addressed again at restore time. -/
theorem resource_id_agreement (c s : String) (cl : EcsClusterState)
    (svc : EcsServiceState) :
    getEcsServiceResourceId c s =
      "service/" ++ ((splitOnSlash c).reverse.headD "") ++ "/"
        ++ ((splitOnSlash s).reverse.headD "") ∧
    registerCallResourceIds (conserveScalableTargets false cl svc)
      = List.replicate svc.scalableTargets.length
          (getEcsServiceResourceId cl.arn svc.arn) ∧
    registerCallResourceIds (restoreScalableTargets false cl svc)
      = List.replicate svc.scalableTargets.length
          (getEcsServiceResourceId cl.arn svc.arn) := by
  refine ⟨?_, ?_, ?_⟩
  · unfold getEcsServiceResourceId
    rw [getLastD_eq_reverse_headD, getLastD_eq_reverse_headD]
  · unfold conserveScalableTargets
    split
    · next h =>
      rw [List.isEmpty_iff] at h
      simp [h, registerCallResourceIds]
    · simp only [Bool.false_eq_true, if_false]
      exact registerCallResourceIds_conserve_map _ _
  · unfold restoreScalableTargets
    split
    · next h =>
      rw [List.isEmpty_iff] at h
      simp [h, registerCallResourceIds]
    · simp only [Bool.false_eq_true, if_false]
      exact registerCallResourceIds_restore_map _ _

/-- From an elementwise `Forall₂` and membership on the right, recover a
related member on the left. -/
theorem forall2_mem_right {R : α → β → Prop} {l : List α} {r : List β}
    (h : List.Forall₂ R l r) {b : β} (hb : b ∈ r) : ∃ a ∈ l, R a b := by
  induction h with
  | nil => cases hb
  | cons hR hF ih =>
    cases hb with
    | head => exact ⟨_, List.mem_cons_self _ _, hR⟩
    | tail _ hb' =>
      obtain ⟨a, ha, hr⟩ := ih hb'
      exact ⟨a, List.mem_cons_of_mem _ ha, hr⟩

/-- A successful per-service capture issues only the describe call: nothing
in its trace performs a mutation. -/
theorem serviceToState_trace_pure {env : AwsEnv} {s : EcsService}
    {p : EcsServiceState × List TrickEvent} (h : serviceToState env s = .ok p) :
    ∀ e ∈ p.2, mutatingCallOf e = none := by
  unfold serviceToState at h
  cases ha : s.serviceArn with
  | none =>
    simp only [ha] at h
    cases h
  | some a =>
    simp only [ha] at h
    cases hd : s.desiredCount with
    | none =>
      simp only [hd] at h
      cases h
    | some dc =>
      simp only [hd] at h
      unfold describeAllScalableTargets at h
      split at h
      · cases h
      · split at h
        · cases h
        · simp only [Except.map] at h
          cases h
          intro e he
          simp only [List.mem_singleton] at he
          subst he
          rfl

/-- A successful per-cluster capture issues only list/describe calls:
nothing in its trace performs a mutation. -/
theorem clusterToState_trace_pure {env : AwsEnv} {c : String}
    {p : EcsClusterState × List TrickEvent} (h : clusterToState env c = .ok p) :
    ∀ e ∈ p.2, mutatingCallOf e = none := by
  simp only [clusterToState] at h
  cases hall : promiseAll ((describeAllServicesResult env c).map (serviceToState env)) with
  | error e => rw [hall] at h; cases h
  | ok pairs =>
    rw [hall] at h
    simp only [Except.map] at h
    cases h
    intro e he
    rcases List.mem_append.mp he with hd | hf
    · simp only [describeAllServicesCalls, List.mem_cons, List.mem_map] at hd
      rcases hd with h | ⟨ch, -, h⟩ <;> subst h <;> rfl
    · rw [List.mem_flatten] at hf
      obtain ⟨tr, htr, he'⟩ := hf
      rw [List.mem_map] at htr
      obtain ⟨pr, hpr, rfl⟩ := htr
      obtain ⟨x, hx, hr⟩ := forall2_mem_right (promiseAll_ok_forall2 hall) hpr
      rw [List.mem_map] at hx
      obtain ⟨s, -, rfl⟩ := hx
      exact serviceToState_trace_pure hr e he'

/-- A successful `getCurrentState` issues only list/describe calls: nothing
in its trace performs a mutation. -/
theorem getCurrentState_trace_pure {env : AwsEnv} {arns : List String}
    {p : StopFargateEcsServicesState × List TrickEvent}
    (h : getCurrentState env arns = .ok p) :
    ∀ e ∈ p.2, mutatingCallOf e = none := by
  unfold getCurrentState at h
  cases hall : promiseAll (arns.map (clusterToState env)) with
  | error e => rw [hall] at h; cases h
  | ok pairs =>
    rw [hall] at h
    simp only [Except.map] at h
    cases h
    intro e he
    rw [List.mem_flatten] at he
    obtain ⟨tr, htr, he'⟩ := he
    rw [List.mem_map] at htr
    obtain ⟨pr, hpr, rfl⟩ := htr
    obtain ⟨x, hx, hr⟩ := forall2_mem_right (promiseAll_ok_forall2 hall) hpr
    rw [List.mem_map] at hx
    obtain ⟨c, -, rfl⟩ := hx
    exact clusterToState_trace_pure hr e he'

/-- Under dry-run every conserve node event is a skip: none mutates. -/
theorem conserveNodeEvents_dry_pure (st : StopFargateEcsServicesState) :
    ∀ e ∈ conserveNodeEvents true st, mutatingCallOf e = none := by
  intro e he
  simp only [conserveNodeEvents, List.mem_flatMap, List.mem_append] at he
  obtain ⟨cl, -, svc, -, h | h⟩ := he
  · simp only [conserveService, if_pos] at h
    simp only [List.mem_singleton] at h
    subst h
    rfl
  · unfold conserveScalableTargets at h
    split at h <;> simp only [if_pos, List.mem_singleton] at h <;> subst h <;> rfl

/-- Under dry-run every restore node event is a skip: none mutates. -/
theorem restoreNodeEvents_dry_pure (st : StopFargateEcsServicesState) :
    ∀ e ∈ restoreNodeEvents true st, mutatingCallOf e = none := by
  intro e he
  simp only [restoreNodeEvents, List.mem_flatMap, List.mem_append] at he
  obtain ⟨cl, -, svc, -, h | h⟩ := he
  · simp only [restoreService, if_pos] at h
    simp only [List.mem_singleton] at h
    subst h
    rfl
  · unfold restoreScalableTargets at h
    split at h
    · simp only [List.mem_singleton] at h
      subst h
      rfl
    · simp only [List.mem_flatMap] at h
      obtain ⟨t, -, ht⟩ := h
      simp only [if_pos, List.mem_singleton] at ht
      subst ht
      rfl

/-- C3: with `dryRun = true`, any successful `conserve` trace and any
`restore` trace perform zero mutating provider calls (no `updateService`,
no `registerScalableTarget` — only list/describe discovery queries occur),
while every one of the four node actions still reports a skip. -/
theorem dry_run_purity (env : AwsEnv) (state : StopFargateEcsServicesState)
    (cl : EcsClusterState) (svc : EcsServiceState)
    (st : StopFargateEcsServicesState) (tr : List TrickEvent)
    (h : conserve env true = .ok (st, tr)) :
    mutatingCalls tr = [] ∧
    mutatingCalls (restore env true state) = [] ∧
    (conserveService true cl svc).any TrickEvent.isSkip = true ∧
    (conserveScalableTargets true cl svc).any TrickEvent.isSkip = true ∧
    (restoreService true cl svc).any TrickEvent.isSkip = true ∧
    (restoreScalableTargets true cl svc).any TrickEvent.isSkip = true := by
  refine ⟨?_, ?_, ?_, ?_, ?_, ?_⟩
  · simp only [conserve] at h
    cases hgs : getCurrentState env (env.listClustersResp.getD []) with
    | error e => rw [hgs] at h; cases h
    | ok p =>
      rw [hgs] at h
      simp only [Except.map, Except.ok.injEq, Prod.mk.injEq] at h
      obtain ⟨h1, h2⟩ := h
      subst h2
      rw [mutatingCalls, List.filterMap_eq_nil_iff]
      intro e he
      rcases List.mem_cons.mp he with rfl | he'
      · rfl
      · rcases List.mem_append.mp he' with hd | hn
        · exact getCurrentState_trace_pure hgs e hd
        · exact conserveNodeEvents_dry_pure p.1 e hn
  · rw [mutatingCalls, List.filterMap_eq_nil_iff]
    exact fun e he => restoreNodeEvents_dry_pure state e he
  · simp [conserveService, TrickEvent.isSkip]
  · unfold conserveScalableTargets
    split <;> simp [TrickEvent.isSkip]
  · simp [restoreService, TrickEvent.isSkip]
  · unfold restoreScalableTargets
    split
    · simp [TrickEvent.isSkip]
    · next hne =>
      obtain ⟨t, ts, htt⟩ : ∃ t ts, svc.scalableTargets = t :: ts := by
        cases hts : svc.scalableTargets with
        | nil => rw [hts] at hne; simp at hne
        | cons t ts => exact ⟨t, ts, rfl⟩
      rw [htt]
      simp [TrickEvent.isSkip]

/-- Witness for the dry-run purity theorem on the scenario environment. -/
theorem dry_run_purity_witness :
    mutatingCalls trace7dry = [] ∧
    mutatingCalls (restore env7 true state7) = [] ∧
    (conserveService true cl7 svc7).any TrickEvent.isSkip = true ∧
    (conserveScalableTargets true cl7 svc7).any TrickEvent.isSkip = true ∧
    (restoreService true cl7 svc7).any TrickEvent.isSkip = true ∧
    (restoreScalableTargets true cl7 svc7).any TrickEvent.isSkip = true :=
  dry_run_purity env7 state7 cl7 svc7 state7 trace7dry rfl

/-- A successful per-service capture copies the service's arn and desired
count (including desired count 0) into the produced State entry. -/
theorem serviceToState_ok_fields {env : AwsEnv} {s : EcsService}
    {p : EcsServiceState × List TrickEvent} (h : serviceToState env s = .ok p) :
    s.serviceArn = some p.1.arn ∧ s.desiredCount = some p.1.desired := by
  unfold serviceToState at h
  cases ha : s.serviceArn with
  | none =>
    simp only [ha] at h
    cases h
  | some a =>
    simp only [ha] at h
    cases hd : s.desiredCount with
    | none =>
      simp only [hd] at h
      cases h
    | some dc =>
      simp only [hd] at h
      unfold describeAllScalableTargets at h
      split at h
      · cases h
      · split at h
        · cases h
        · simp only [Except.map] at h
          cases h
          exact ⟨rfl, rfl⟩

/-- A successful per-cluster capture records the cluster arn and one entry
per discovered service, in order, preserving arn and desired count. -/
theorem clusterToState_ok_fields {env : AwsEnv} {c : String}
    {p : EcsClusterState × List TrickEvent} (h : clusterToState env c = .ok p) :
    p.1.arn = c ∧
    List.Forall₂ (fun (s : EcsService) (entry : EcsServiceState) =>
        s.serviceArn = some entry.arn ∧ s.desiredCount = some entry.desired)
      (describeAllServicesResult env c) p.1.services := by
  simp only [clusterToState] at h
  cases hall : promiseAll ((describeAllServicesResult env c).map (serviceToState env)) with
  | error e =>
    rw [hall] at h
    cases h
  | ok pairs =>
    rw [hall] at h
    simp only [Except.map] at h
    cases h
    refine ⟨rfl, ?_⟩
    have h2 : List.Forall₂ (fun s pr => serviceToState env s = .ok pr)
        (describeAllServicesResult env c) pairs :=
      List.forall₂_map_left_iff.mp (promiseAll_ok_forall2 hall)
    exact List.forall₂_map_right_iff.mpr
      (List.Forall₂.imp (fun s pr hok => serviceToState_ok_fields hok) h2)

/-- C8: whenever `conserve` returns a State, that State has one cluster
entry per listed cluster and one service entry per discovered service, in
order, preserving each service's arn and desired count — services already
at desired count 0 included — and (when not a dry run) each desired-0
service additionally reports the explicit already-zero skip in the trace.
No discovered resource is silently dropped. -/
theorem no_silent_drops (env : AwsEnv) (d : Bool)
    (st : StopFargateEcsServicesState) (tr : List TrickEvent)
    (h : conserve env d = .ok (st, tr)) :
    List.Forall₂ (fun cArn cl =>
        cl.arn = cArn ∧
        List.Forall₂ (fun (s : EcsService) (entry : EcsServiceState) =>
            s.serviceArn = some entry.arn ∧ s.desiredCount = some entry.desired)
          (describeAllServicesResult env cArn) cl.services)
      (env.listClustersResp.getD []) st ∧
    (d = false → ∀ cl ∈ st, ∀ svc ∈ cl.services, svc.desired = 0 →
      TrickEvent.skip "Skipped, desired count is already zero" ∈ tr) := by
  simp only [conserve] at h
  unfold getCurrentState at h
  cases hall : promiseAll ((env.listClustersResp.getD []).map (clusterToState env)) with
  | error e =>
    rw [hall] at h
    cases h
  | ok pairs =>
    rw [hall] at h
    simp only [Except.map, Except.ok.injEq, Prod.mk.injEq] at h
    obtain ⟨h1, h2⟩ := h
    subst h1
    subst h2
    constructor
    · have hcl : List.Forall₂ (fun c pr => clusterToState env c = .ok pr)
          (env.listClustersResp.getD []) pairs :=
        List.forall₂_map_left_iff.mp (promiseAll_ok_forall2 hall)
      exact List.forall₂_map_right_iff.mpr
        (List.Forall₂.imp (fun c pr hok => clusterToState_ok_fields hok) hcl)
    · intro hd cl hcl svc hsvc h0
      subst hd
      have hskip : TrickEvent.skip "Skipped, desired count is already zero"
          ∈ conserveService false cl svc := by
        simp [conserveService, h0]
      have hnode : TrickEvent.skip "Skipped, desired count is already zero"
          ∈ conserveNodeEvents false (pairs.map Prod.fst) := by
        simp only [conserveNodeEvents, List.mem_flatMap]
        exact ⟨cl, hcl, svc, hsvc, List.mem_append_left _ hskip⟩
      exact List.mem_cons_of_mem _ (List.mem_append_right _ hnode)

/-- Cluster ARN of the no-silent-drops witness. -/
def cArn8 : String := "arn:aws:ecs:eu-west-1:444:cluster/hamlet"

/-- Service ARN of the no-silent-drops witness (a service already at
desired count 0). -/
def sArn8 : String := "arn:aws:ecs:eu-west-1:444:service/ghost"

/-- One cluster with one service already at desired count 0 and no
scalable targets. -/
def env8 : AwsEnv where
  listClustersResp := some [cArn8]
  listServicesResp := fun c => if c = cArn8 then some [sArn8] else none
  describeServicesResp := fun c svcs =>
    if c = cArn8 ∧ svcs = [sArn8] then
      some [{ serviceArn := some sArn8, desiredCount := some 0, clusterArn := some cArn8 }]
    else none
  describeScalableTargetsResp := fun _ => some []

/-- The State `conserve` captures from `env8`: the desired-0 service is
recorded, not dropped. -/
def st8 : StopFargateEcsServicesState :=
  [{ arn := cArn8,
     services := [{ arn := sArn8, desired := 0, scalableTargets := [] }] }]

/-- The `conserve env8 false` trace: discovery plus the two skips. -/
def tr8 : List TrickEvent :=
  [.apiCall .listClusters,
   .apiCall (.listServices cArn8 "FARGATE"),
   .apiCall (.describeServices cArn8 [sArn8]),
   .apiCall (.describeScalableTargets "ecs" ["service/hamlet/ghost"]
     "ecs:service:DesiredCount"),
   .skip "Skipped, desired count is already zero",
   .skip "No scalable targets defined"]

/-- Witness for the no-silent-drops theorem on a concrete environment with
a desired-0 service. -/
theorem no_silent_drops_witness :
    List.Forall₂ (fun cArn cl =>
        cl.arn = cArn ∧
        List.Forall₂ (fun (s : EcsService) (entry : EcsServiceState) =>
            s.serviceArn = some entry.arn ∧ s.desiredCount = some entry.desired)
          (describeAllServicesResult env8 cArn) cl.services)
      (env8.listClustersResp.getD []) st8 ∧
    (false = false → ∀ cl ∈ st8, ∀ svc ∈ cl.services, svc.desired = 0 →
      TrickEvent.skip "Skipped, desired count is already zero" ∈ tr8) :=
  no_silent_drops env8 false st8 tr8 rfl
